import Mathlib

/-!
Verification of the dual-parabolic wave-propagation engine
(`src/WaveField.cpp`, `src/DualParabolicWaveSimulation.cpp`).

The C++ engine is shallowly embedded: field buffers become functions
`ℕ → ℕ → ℚ`, `double` arithmetic becomes exact rational arithmetic, and the
transcendental primitives (`exp`, `cos`, `pow`, `π`) used only inside the
Morlet wavelet are abstracted as an explicit `RealOps` record of rational
functions, so every step function stays executable.  The CFL stability
check, which genuinely needs `√2`, is embedded over `ℝ`.
-/

namespace WaveSimulation

/-- Material classification of a grid cell (C++ `BoundaryType`). -/
inductive BoundaryType where
  | AIR : BoundaryType
  | PARABOLIC : BoundaryType
  | RIGID : BoundaryType
deriving DecidableEq

/-- Simulation configuration (C++ `SimulationConfig`).  `timeStep` is kept in
`ℝ` because the default construction stores `0.4·min(dx,dy)/(speed·√2)`;
all other fields are exact rationals. -/
structure SimulationConfig where
  xMin : ℚ
  xMax : ℚ
  yMin : ℚ
  yMax : ℚ
  gridSize : ℕ
  timeStep : ℝ
  dampingFactor : ℚ
  reflectionCoeff : ℚ

/-- Wave parameters (C++ `WaveParams`). -/
structure WaveParams where
  frequency : ℚ
  wavelength : ℚ
  speed : ℚ
  amplitude : ℚ

/-- A 2-D point (C++ `Point2D`). -/
structure Point2D where
  x : ℚ
  y : ℚ

/-- The transcendental primitives used by the Morlet wavelet
(`std::exp`, `std::cos`, `std::pow`, `M_PI`), abstracted so that the
embedding stays inside `ℚ`. -/
structure RealOps where
  rexp : ℚ → ℚ
  rcos : ℚ → ℚ
  rpow : ℚ → ℚ → ℚ
  rpi : ℚ

/-- The immutable inputs of a `WaveField` (configuration, wave parameters and
the physical focus point passed to the constructor). -/
structure WaveContext where
  cfg : SimulationConfig
  wp : WaveParams
  focus : Point2D

/-- Mutable per-step state of the field: the current buffer `m_grid`, the
previous buffer `m_previousGrid`, the transient source buffer `m_sourceGrid`
and the elapsed time `m_time`. -/
structure FieldState where
  grid : ℕ → ℕ → ℚ
  prev : ℕ → ℕ → ℚ
  source : ℕ → ℕ → ℚ
  time : ℚ

/-- Grid spacing in x: `(xMax - xMin) / (gridSize - 1)`. -/
def dxOf (cfg : SimulationConfig) : ℚ :=
  (cfg.xMax - cfg.xMin) / ((cfg.gridSize : ℚ) - 1)

/-- Grid spacing in y: `(yMax - yMin) / (gridSize - 1)`. -/
def dyOf (cfg : SimulationConfig) : ℚ :=
  (cfg.yMax - cfg.yMin) / ((cfg.gridSize : ℚ) - 1)

/-- Hard-coded propagation speed of the parabolic shell material,
1,500,000 mm/s (`c_parabolic` in the C++ sources). -/
def cParabolic : ℚ := 1500000

/-- Per-cell material classification, the body of the doubly-nested loop of
`WaveField::createBoundaryMask`.  Physical coordinates are derived from the
cell indices (y is flipped), the two hard-coded parabolas and the 40 mm
shell thickness classify the cell, and afterwards any cell within 5 cells
of the grid border is forced to `RIGID`. -/
def createBoundaryMask (cfg : SimulationConfig) (i j : ℕ) : BoundaryType :=
  let dx := dxOf cfg
  let dy := dyOf cfg
  let x : ℚ := cfg.xMin + (j : ℚ) * dx
  let y : ℚ := cfg.yMax - (i : ℚ) * dy
  let majorDiameter : ℚ := 20 * 25.4
  let majorFocus : ℚ := 100
  let minorDiameter : ℚ := 200
  let minorFocus : ℚ := 50
  let parabolicThickness : ℚ := 40
  let majorY : ℚ := -(x * x) / (4 * majorFocus) + majorFocus
  let insideMajorParabola : Bool := decide (y ≤ majorY) && decide (|x| ≤ majorDiameter / 2)
  let majorYInner : ℚ := majorY + parabolicThickness
  let insideMajorParabolaInner : Bool := decide (y ≤ majorYInner) && decide (|x| ≤ majorDiameter / 2)
  let minorY : ℚ := (x * x) / (4 * minorFocus) - minorFocus
  let outsideMinorParabola : Bool := decide (y ≥ minorY) && decide (|x| ≤ minorDiameter / 2)
  let minorYInner : ℚ := minorY - parabolicThickness
  let outsideMinorParabolaInner : Bool := decide (y ≥ minorYInner) && decide (|x| ≤ minorDiameter / 2)
  let geometric : BoundaryType :=
    if insideMajorParabolaInner && !insideMajorParabola then BoundaryType.PARABOLIC
    else if outsideMinorParabolaInner && !outsideMinorParabola then BoundaryType.PARABOLIC
    else BoundaryType.AIR
  if i < 5 ∨ cfg.gridSize ≤ i + 5 ∨ j < 5 ∨ cfg.gridSize ≤ j + 5 then
    BoundaryType.RIGID
  else geometric

/-- Rounding half away from zero, the behaviour of C++ `std::round`.
(Mathlib's `round` rounds halves up, which differs at negative halves.) -/
def roundAway (q : ℚ) : ℤ :=
  if q < 0 then -(round (-q)) else round q

/-- `WaveField::calculateFocusPosition`: the focus point is resolved to grid
indices by rounding, then clamped to `[0, gridSize - 1]`. -/
def calculateFocusPosition (ctx : WaveContext) : ℕ × ℕ :=
  let dx := dxOf ctx.cfg
  let dy := dyOf ctx.cfg
  let fI : ℤ := roundAway ((ctx.cfg.yMax - ctx.focus.y) / dy)
  let fJ : ℤ := roundAway ((ctx.focus.x - ctx.cfg.xMin) / dx)
  (Int.toNat (min (max fI 0) ((ctx.cfg.gridSize : ℤ) - 1)),
   Int.toNat (min (max fJ 0) ((ctx.cfg.gridSize : ℤ) - 1)))

/-- The per-step scalar written by `WaveField::addSourceExcitation` before the
buffer writes: the real Morlet wavelet `c_σ·π^(-1/4)·e^(-τ²/2)·(cos(στ)-κ_σ)`
with `σ = 6`, scaled by `amplitude · 15`, and zero outside `time ≤ 8/f₀`
and `|τ| ≤ 4`. -/
def morletAmplitude (ops : RealOps) (wp : WaveParams) (time : ℚ) : ℚ :=
  let centralFreq := wp.frequency
  let timeScale : ℚ := 1 / centralFreq
  let pulseCenter : ℚ := 3 * timeScale
  let pulseDuration : ℚ := 8 * timeScale
  if time ≤ pulseDuration then
    let scaledTime : ℚ := (time - pulseCenter) / timeScale
    let sigma : ℚ := 6
    if |scaledTime| ≤ 4 then
      let kappaSigma := ops.rexp (-(0.5) * sigma * sigma)
      let cSigma := ops.rpow (1 + ops.rexp (-(sigma * sigma)) - 2 * ops.rexp (-(0.75) * (sigma * sigma))) (-(0.5))
      let gaussian := ops.rexp (-(0.5) * scaledTime * scaledTime)
      let carrier := ops.rcos (sigma * scaledTime)
      let normalization := cSigma * ops.rpow ops.rpi (-(0.25))
      let morletValue := normalization * gaussian * (carrier - kappaSigma)
      let sourceAmplitude := wp.amplitude * 15
      sourceAmplitude * morletValue
    else 0
  else 0

/-- Cell `(i, j)` is one of the four axis-adjacent neighbours of the focus
cell `f` visited by the neighbour loop of `addSourceExcitation`
(offsets (-1,0), (1,0), (0,-1), (0,1); the `+ 1` on the left of the first and
third disjuncts encodes the C++ `ni >= 0` range check). -/
abbrev isFocusNeighbor (f : ℕ × ℕ) (i j : ℕ) : Prop :=
  (i + 1 = f.1 ∧ j = f.2) ∨ (i = f.1 + 1 ∧ j = f.2) ∨
    (i = f.1 ∧ j + 1 = f.2) ∨ (i = f.1 ∧ j = f.2 + 1)

/-- `WaveField::addSourceExcitation`, pointwise.  The C++ code first zero-fills
the source buffer; then, only when the (clamped) focus cell is in range and
its `m_boundaryMask` entry is nonzero (i.e. it is not `RIGID`), it writes the
wavelet value at the focus cell and half of it at each in-range, non-`RIGID`
axis neighbour.  All written cells are pairwise distinct, so the sequential
writes are faithfully rendered as one conditional expression per cell. -/
def addSourceExcitation (ctx : WaveContext) (ops : RealOps) (time : ℚ) :
    ℕ → ℕ → ℚ := fun i j =>
  let N := ctx.cfg.gridSize
  let f := calculateFocusPosition ctx
  if f.1 < N ∧ f.2 < N ∧ createBoundaryMask ctx.cfg f.1 f.2 ≠ BoundaryType.RIGID then
    let amplitude := morletAmplitude ops ctx.wp time
    if i = f.1 ∧ j = f.2 then amplitude
    else if i < N ∧ j < N ∧ createBoundaryMask ctx.cfg i j ≠ BoundaryType.RIGID ∧
        isFocusNeighbor f i j then
      amplitude * 0.5
    else 0
  else 0

/-- Standard second central difference in x (`WaveField::getFiniteDifferenceX`). -/
def getFiniteDifferenceX (g : ℕ → ℕ → ℚ) (i j : ℕ) : ℚ :=
  g i (j - 1) - 2 * g i j + g i (j + 1)

/-- Standard second central difference in y (`WaveField::getFiniteDifferenceY`). -/
def getFiniteDifferenceY (g : ℕ → ℕ → ℚ) (i j : ℕ) : ℚ :=
  g (i - 1) j - 2 * g i j + g (i + 1) j

/-- `WaveField::getMaterialAwareFiniteDifferenceX`: a `RIGID` (or out-of-range)
neighbour contributes 0 instead of its buffer value.  (The C++ body also
computes impedance weights that are never used; they are omitted.) -/
def getMaterialAwareFiniteDifferenceX (cfg : SimulationConfig)
    (g : ℕ → ℕ → ℚ) (i j : ℕ) : ℚ :=
  let N := cfg.gridSize
  let leftType := if 0 < j then createBoundaryMask cfg i (j - 1) else BoundaryType.RIGID
  let rightType := if j + 1 < N then createBoundaryMask cfg i (j + 1) else BoundaryType.RIGID
  let leftValue := if 0 < j ∧ leftType ≠ BoundaryType.RIGID then g i (j - 1) else 0
  let rightValue := if j + 1 < N ∧ rightType ≠ BoundaryType.RIGID then g i (j + 1) else 0
  leftValue - 2 * g i j + rightValue

/-- `WaveField::getMaterialAwareFiniteDifferenceY`. -/
def getMaterialAwareFiniteDifferenceY (cfg : SimulationConfig)
    (g : ℕ → ℕ → ℚ) (i j : ℕ) : ℚ :=
  let N := cfg.gridSize
  let topType := if 0 < i then createBoundaryMask cfg (i - 1) j else BoundaryType.RIGID
  let bottomType := if i + 1 < N then createBoundaryMask cfg (i + 1) j else BoundaryType.RIGID
  let topValue := if 0 < i ∧ topType ≠ BoundaryType.RIGID then g (i - 1) j else 0
  let bottomValue := if i + 1 < N ∧ bottomType ≠ BoundaryType.RIGID then g (i + 1) j else 0
  topValue - 2 * g i j + bottomValue

/-- Material-specific propagation speed used by `applyWaveEquation`:
`c_parabolic` for `PARABOLIC` cells, the configured air speed otherwise. -/
def materialSpeed (ctx : WaveContext) (i j : ℕ) : ℚ :=
  if createBoundaryMask ctx.cfg i j = BoundaryType.PARABOLIC then cParabolic
  else ctx.wp.speed

/-- The wave-equation update formula shared by the interior and top-row
branches of `applyWaveEquation`:
`(-(prev - 2·cur) + q0·γ·prev + q1·src + q2·dxx + q3·dzz) / (1 + γ·q0)`. -/
def solveFormula (γ q0 q1 q2 q3 prevV curV srcV dxx dzz : ℚ) : ℚ :=
  ((-1) * (prevV - 2 * curV) + q0 * γ * prevV + q1 * srcV + q2 * dxx + q3 * dzz) /
    (1 + γ * q0)

/-- One cell of the new buffer computed by `WaveField::applyWaveEquation`:
`RIGID` cells get 0; border cells get 0 except the (top-row, interior-column)
branch which uses the one-sided y-difference; interior cells use
material-aware differences near a material interface and standard central
differences otherwise. -/
def newGridVal (ctx : WaveContext) (dt : ℚ) (st : FieldState) (i j : ℕ) : ℚ :=
  let cfg := ctx.cfg
  let N := cfg.gridSize
  let γ := cfg.dampingFactor
  if createBoundaryMask cfg i j = BoundaryType.RIGID then 0
  else
    let c := materialSpeed ctx i j
    let q0 := c * dt
    let q1 := c * c * dt * dt
    let q2 := (c * dt / dxOf cfg) * (c * dt / dxOf cfg)
    let q3 := (c * dt / dyOf cfg) * (c * dt / dyOf cfg)
    if i = 0 ∨ i = N - 1 ∨ j = 0 ∨ j = N - 1 then
      if i = 0 then
        if 0 < j ∧ j < N - 1 then
          solveFormula γ q0 q1 q2 q3 (st.prev i j) (st.grid i j) (st.source i j)
            (getFiniteDifferenceX st.grid i j)
            (2 * (st.grid (i + 1) j - st.grid i j))
        else 0
      else 0
    else
      if (0 < i ∧ createBoundaryMask cfg (i - 1) j ≠ createBoundaryMask cfg i j) ∨
         (i < N - 1 ∧ createBoundaryMask cfg (i + 1) j ≠ createBoundaryMask cfg i j) ∨
         (0 < j ∧ createBoundaryMask cfg i (j - 1) ≠ createBoundaryMask cfg i j) ∨
         (j < N - 1 ∧ createBoundaryMask cfg i (j + 1) ≠ createBoundaryMask cfg i j) then
        solveFormula γ q0 q1 q2 q3 (st.prev i j) (st.grid i j) (st.source i j)
          (getMaterialAwareFiniteDifferenceX cfg st.grid i j)
          (getMaterialAwareFiniteDifferenceY cfg st.grid i j)
      else
        solveFormula γ q0 q1 q2 q3 (st.prev i j) (st.grid i j) (st.source i j)
          (getFiniteDifferenceX st.grid i j)
          (getFiniteDifferenceY st.grid i j)

/-- `WaveField::applyBoundaryConditions`: re-zero every `RIGID` cell in both
the current and the previous buffer. -/
def applyBoundaryConditions (cfg : SimulationConfig) (st : FieldState) : FieldState :=
  { st with
    grid := fun i j =>
      if createBoundaryMask cfg i j = BoundaryType.RIGID then 0 else st.grid i j,
    prev := fun i j =>
      if createBoundaryMask cfg i j = BoundaryType.RIGID then 0 else st.prev i j }

/-- `WaveField::applyWaveEquation`: compute the full new buffer from the two
prior buffers, swap (`previous ← current`, `current ← new`) and then apply the
rigid boundary conditions. -/
def applyWaveEquation (ctx : WaveContext) (dt : ℚ) (st : FieldState) : FieldState :=
  applyBoundaryConditions ctx.cfg
    { st with prev := st.grid, grid := fun i j => newGridVal ctx dt st i j }

/-- `WaveField::update`: advance time, rebuild the source buffer at the new
time, then run the wave-equation pass. -/
def update (ctx : WaveContext) (ops : RealOps) (dt : ℚ) (st : FieldState) : FieldState :=
  let newTime := st.time + dt
  applyWaveEquation ctx dt
    { st with time := newTime, source := addSourceExcitation ctx ops newTime }

/-- Iterated stepping: `updateN n` performs `n` calls of `update`. -/
def updateN (ctx : WaveContext) (ops : RealOps) (dt : ℚ) : ℕ → FieldState → FieldState
  | 0, st => st
  | n + 1, st => update ctx ops dt (updateN ctx ops dt n st)

/-- Initial state built by `WaveField::initializeGrids` / `reset`: both field
buffers and the source buffer all zero, elapsed time zero. -/
def initialState : FieldState :=
  { grid := fun _ _ => 0, prev := fun _ _ => 0, source := fun _ _ => 0, time := 0 }

/-- The stability bound computed by `WaveField::validateCFLCondition`:
`0.4 · min(dx,dy) / (max(speed, c_parabolic) · √2)`. -/
noncomputable def maxStableTimeStep (cfg : SimulationConfig) (wp : WaveParams) : ℝ :=
  (0.4 : ℝ) * ((min (dxOf cfg) (dyOf cfg) : ℚ) : ℝ) /
    (((max wp.speed cParabolic : ℚ) : ℝ) * Real.sqrt 2)

/-- `WaveField::validateCFLCondition` emits its (non-fatal) warning exactly
when the configured time step exceeds the stability bound. -/
def cflWarning (cfg : SimulationConfig) (wp : WaveParams) : Prop :=
  cfg.timeStep > maxStableTimeStep cfg wp

/-- Propagation speed associated with each material type, following the spec:
the ambient speed for `OPEN_MEDIUM`, the shell speed for `SHELL_MEDIUM`, and
no propagation (0) for `RIGID`. -/
def specMaterialSpeed (wp : WaveParams) : BoundaryType → ℚ
  | BoundaryType.AIR => wp.speed
  | BoundaryType.PARABOLIC => cParabolic
  | BoundaryType.RIGID => 0

/-- The spec's `fastestSpeed`: the maximum propagation speed over all material
types with nonzero propagation speed. -/
def specFastestSpeed (wp : WaveParams) : ℚ :=
  ((([BoundaryType.AIR, BoundaryType.PARABOLIC, BoundaryType.RIGID].map
      (specMaterialSpeed wp)).filter (fun s => decide (s ≠ 0))).foldr max 0)

/-- The spec's `maxStableDt`: `CFL_FACTOR · min(dx,dy) / (fastestSpeed · √2)`
with `CFL_FACTOR = 0.4`. -/
noncomputable def specMaxStableDt (cfg : SimulationConfig) (wp : WaveParams) : ℝ :=
  (0.4 : ℝ) * ((min (dxOf cfg) (dyOf cfg) : ℚ) : ℝ) /
    (((specFastestSpeed wp : ℚ) : ℝ) * Real.sqrt 2)

/-- The immutable data stored by the `WaveField` constructor, which runs the
CFL check (a `const` method) and keeps the supplied configuration verbatim. -/
structure WaveFieldObj where
  config : SimulationConfig
  time : ℚ
  focusIdx : ℕ × ℕ

/-- The `WaveField` constructor: validate the CFL condition (without touching
the configuration), initialize the grids, build the boundary mask and resolve
the focus position. -/
def waveFieldCtor (cfg : SimulationConfig) (wp : WaveParams) (fp : Point2D) : WaveFieldObj :=
  { config := cfg, time := 0,
    focusIdx := calculateFocusPosition { cfg := cfg, wp := wp, focus := fp } }

/-- Wave parameters built by
`DualParabolicWaveSimulation::setupWaveParameters`. -/
def defaultWaveParams : WaveParams :=
  { frequency := 1000, wavelength := 343000 / 1000, speed := 343000, amplitude := 1 }

/-- The minimal grid spacing of the default configuration of
`DualParabolicWaveSimulation::setupSimulationConfig`
(domain x ∈ [-300, 300], y ∈ [-100, 150], 300×300 cells). -/
def defaultMinSpacing : ℚ :=
  min ((300 - (-300 : ℚ)) / (300 - 1)) ((150 - (-100 : ℚ)) / (300 - 1))

/-- The default configuration built by
`DualParabolicWaveSimulation::setupSimulationConfig`: its time step is
computed as `0.4 · min(dx,dy) / (speed · √2)` from the ambient speed
343,000 mm/s alone. -/
noncomputable def defaultConfig : SimulationConfig :=
  { xMin := -300, xMax := 300, yMin := -100, yMax := 150, gridSize := 300,
    timeStep := (0.4 : ℝ) * (defaultMinSpacing : ℝ) / ((343000 : ℝ) * Real.sqrt 2),
    dampingFactor := 0.001, reflectionCoeff := 0.95 }

/-- The update value the spec prescribes for a top-row cell `(i = 0, j)`:
the wave-equation formula at propagation speed `c` with the standard
x-difference and the one-sided y-difference `2·(current[i+1,j]-current[i,j])`.
Stated from the spec's words, for comparison with the code. -/
def specTopRowValue (cfg : SimulationConfig) (st : FieldState) (c dt : ℚ) (i j : ℕ) : ℚ :=
  solveFormula cfg.dampingFactor (c * dt) (c * c * dt * dt)
    ((c * dt / dxOf cfg) * (c * dt / dxOf cfg)) ((c * dt / dyOf cfg) * (c * dt / dyOf cfg))
    (st.prev i j) (st.grid i j) (st.source i j)
    (getFiniteDifferenceX st.grid i j)
    (2 * (st.grid (i + 1) j - st.grid i j))

/-! ### Concrete instances used to exercise the definitions -/

/-- A concrete instantiation of the transcendental primitives, used to
evaluate the model at specific inputs. -/
def testOps : RealOps :=
  { rexp := fun _ => 1, rcos := fun _ => 0, rpow := fun _ _ => 1, rpi := 1 }

/-- A small concrete configuration with unit grid spacing (16×16 cells over
[0,15]×[0,15]). -/
def testConfig : SimulationConfig :=
  { xMin := 0, xMax := 15, yMin := 0, yMax := 15, gridSize := 16,
    timeStep := 0, dampingFactor := 0, reflectionCoeff := 0 }

/-- Concrete wave parameters for the small test configuration. -/
def testWaveParams : WaveParams :=
  { frequency := 1, wavelength := 343000, speed := 343000, amplitude := 1 }

/-- Context for the small test configuration; the physical point (8, 7) maps
to grid cell (8, 8), an interior `AIR` cell. -/
def testCtx : WaveContext :=
  { cfg := testConfig, wp := testWaveParams, focus := { x := 8, y := 7 } }

/-- The test context with the wave amplitude set to 0. -/
def testCtxAmpZero : WaveContext :=
  { testCtx with wp := { testWaveParams with amplitude := 0 } }

/-- A 12×12 unit-spacing configuration used to probe the top-row branch. -/
def cfgTop : SimulationConfig :=
  { xMin := 0, xMax := 11, yMin := 0, yMax := 11, gridSize := 12,
    timeStep := 0, dampingFactor := 0, reflectionCoeff := 0 }

/-- Context for `cfgTop`. -/
def ctxTop : WaveContext :=
  { cfg := cfgTop, wp := testWaveParams, focus := { x := 0, y := 0 } }

/-- A state for `cfgTop` whose current buffer is 1 at cell (1,6) and 0
elsewhere, with elapsed time 100 (past the source pulse support). -/
def stTop : FieldState :=
  { grid := fun i j => if i = 1 ∧ j = 6 then 1 else 0,
    prev := fun _ _ => 0, source := fun _ _ => 0, time := 100 }

/-- The default 300×300 geometry with a focus point that resolves to grid
cell (4, 150) — a cell inside the 5-cell rigid edge margin whose neighbour
(5, 150) is an interior `AIR` cell. -/
def ctxFocusRigid : WaveContext :=
  { cfg := { xMin := -300, xMax := 300, yMin := -100, yMax := 150, gridSize := 300,
             timeStep := 0, dampingFactor := 0.001, reflectionCoeff := 0.95 },
    wp := { frequency := 1, wavelength := 343000, speed := 343000, amplitude := 1 },
    focus := { x := 0, y := 43850 / 299 } }

/-! ### Helper lemmas -/

/-- Unfolding the current buffer of one `update` step. -/
lemma update_grid (ctx : WaveContext) (ops : RealOps) (dt : ℚ) (st : FieldState) (i j : ℕ) :
    (update ctx ops dt st).grid i j =
      if createBoundaryMask ctx.cfg i j = BoundaryType.RIGID then 0
      else newGridVal ctx dt
        { grid := st.grid, prev := st.prev,
          source := addSourceExcitation ctx ops (st.time + dt), time := st.time + dt } i j :=
  rfl

/-- Unfolding the previous buffer of one `update` step: it is the old current
buffer, re-zeroed at `RIGID` cells. -/
lemma update_prev (ctx : WaveContext) (ops : RealOps) (dt : ℚ) (st : FieldState) (i j : ℕ) :
    (update ctx ops dt st).prev i j =
      if createBoundaryMask ctx.cfg i j = BoundaryType.RIGID then 0 else st.grid i j :=
  rfl

/-- Unfolding the source buffer of one `update` step: it is rebuilt from
scratch at the new time, independently of the pre-step source buffer. -/
lemma update_source (ctx : WaveContext) (ops : RealOps) (dt : ℚ) (st : FieldState) :
    (update ctx ops dt st).source = addSourceExcitation ctx ops (st.time + dt) :=
  rfl

/-- Any cell within the 5-cell edge margin is classified `RIGID`,
whatever the geometry. -/
lemma margin_rigid (cfg : SimulationConfig) (i j : ℕ)
    (h : i < 5 ∨ cfg.gridSize ≤ i + 5 ∨ j < 5 ∨ cfg.gridSize ≤ j + 5) :
    createBoundaryMask cfg i j = BoundaryType.RIGID := by
  simp only [createBoundaryMask]
  rw [if_pos h]

/-- Under the rigid-zero invariant, the material-aware x-difference agrees
with the standard central x-difference at interior columns. -/
lemma maFdX_eq (cfg : SimulationConfig) (g : ℕ → ℕ → ℚ) (i j : ℕ)
    (hz : ∀ a b, createBoundaryMask cfg a b = BoundaryType.RIGID → g a b = 0)
    (hj : 0 < j) (hjN : j + 1 < cfg.gridSize) :
    getMaterialAwareFiniteDifferenceX cfg g i j = getFiniteDifferenceX g i j := by
  by_cases hL : createBoundaryMask cfg i (j - 1) = BoundaryType.RIGID <;>
    by_cases hR : createBoundaryMask cfg i (j + 1) = BoundaryType.RIGID <;>
      simp_all [getMaterialAwareFiniteDifferenceX, getFiniteDifferenceX, hz i (j - 1),
        hz i (j + 1)]

/-- Under the rigid-zero invariant, the material-aware y-difference agrees
with the standard central y-difference at interior rows. -/
lemma maFdY_eq (cfg : SimulationConfig) (g : ℕ → ℕ → ℚ) (i j : ℕ)
    (hz : ∀ a b, createBoundaryMask cfg a b = BoundaryType.RIGID → g a b = 0)
    (hi : 0 < i) (hiN : i + 1 < cfg.gridSize) :
    getMaterialAwareFiniteDifferenceY cfg g i j = getFiniteDifferenceY g i j := by
  by_cases hT : createBoundaryMask cfg (i - 1) j = BoundaryType.RIGID <;>
    by_cases hB : createBoundaryMask cfg (i + 1) j = BoundaryType.RIGID <;>
      simp_all [getMaterialAwareFiniteDifferenceY, getFiniteDifferenceY, hz (i - 1) j,
        hz (i + 1) j]

/-! ### Claim theorems -/

/-- C8: every grid cell with `i < 5`, `i ≥ N-5`, `j < 5` or `j ≥ N-5` is
classified `RIGID` at initialization, regardless of the parabola geometry;
in particular every cell of grid row 0 is `RIGID`. -/
theorem edge_margin_forces_rigid (cfg : SimulationConfig) (i j : ℕ)
    (h : i < 5 ∨ cfg.gridSize ≤ i + 5 ∨ j < 5 ∨ cfg.gridSize ≤ j + 5) :
    createBoundaryMask cfg i j = BoundaryType.RIGID :=
  margin_rigid cfg i j h

/-- Witness for C8 at a concrete input: cell (0, 7) of the 16×16 test grid
lies on row 0 and is classified `RIGID`. -/
theorem edge_margin_forces_rigid_witness :
    ((0 : ℕ) < 5 ∨ testConfig.gridSize ≤ 0 + 5 ∨ (7 : ℕ) < 5 ∨ testConfig.gridSize ≤ 7 + 5) ∧
    createBoundaryMask testConfig 0 7 = BoundaryType.RIGID :=
  ⟨Or.inl (by norm_num),
   edge_margin_forces_rigid testConfig 0 7 (Or.inl (by norm_num))⟩

/-- C2: after any positive number of steps, from any starting state, every
cell classified `RIGID` holds exactly 0 in both the current and the previous
buffer. -/
theorem rigid_zero_after_steps (ctx : WaveContext) (ops : RealOps) (dt : ℚ)
    (st : FieldState) (n : ℕ) (hn : 0 < n) (i j : ℕ)
    (hr : createBoundaryMask ctx.cfg i j = BoundaryType.RIGID) :
    (updateN ctx ops dt n st).grid i j = 0 ∧ (updateN ctx ops dt n st).prev i j = 0 := by
  obtain ⟨m, rfl⟩ : ∃ m, n = m + 1 := ⟨n - 1, by omega⟩
  constructor
  · rw [show updateN ctx ops dt (m + 1) st = update ctx ops dt (updateN ctx ops dt m st) from
        rfl, update_grid, if_pos hr]
  · rw [show updateN ctx ops dt (m + 1) st = update ctx ops dt (updateN ctx ops dt m st) from
        rfl, update_prev, if_pos hr]

/-- Witness for C2 at a concrete input: after 1 step of the test context,
the `RIGID` cell (0, 0) is 0 in both buffers. -/
theorem rigid_zero_after_steps_witness :
    ((0 : ℕ) < 1 ∧ createBoundaryMask testCtx.cfg 0 0 = BoundaryType.RIGID) ∧
    (updateN testCtx testOps 1 1 initialState).grid 0 0 = 0 ∧
    (updateN testCtx testOps 1 1 initialState).prev 0 0 = 0 :=
  ⟨⟨by norm_num, by rfl⟩,
   rigid_zero_after_steps testCtx testOps 1 initialState 1 (by norm_num) 0 0 (by rfl)⟩

/-- C9: for interior cells, whenever every `RIGID` cell of the current buffer
holds 0, the material-aware finite differences coincide with the standard
second central differences in x and in y. -/
theorem material_aware_diff_equiv (cfg : SimulationConfig) (g : ℕ → ℕ → ℚ) (i j : ℕ)
    (hz : ∀ a b, createBoundaryMask cfg a b = BoundaryType.RIGID → g a b = 0)
    (hi : 0 < i) (hiN : i + 1 < cfg.gridSize) (hj : 0 < j) (hjN : j + 1 < cfg.gridSize) :
    getMaterialAwareFiniteDifferenceX cfg g i j = getFiniteDifferenceX g i j ∧
    getMaterialAwareFiniteDifferenceY cfg g i j = getFiniteDifferenceY g i j :=
  ⟨maFdX_eq cfg g i j hz hj hjN, maFdY_eq cfg g i j hz hi hiN⟩

/-- Witness for C9 at a concrete input: the all-zero buffer on the 16×16 test
grid at interior cell (7, 7). -/
theorem material_aware_diff_equiv_witness :
    ((0 : ℕ) < 7 ∧ 7 + 1 < testConfig.gridSize) ∧
    getMaterialAwareFiniteDifferenceX testConfig (fun _ _ => 0) 7 7 =
      getFiniteDifferenceX (fun _ _ => 0) 7 7 ∧
    getMaterialAwareFiniteDifferenceY testConfig (fun _ _ => 0) 7 7 =
      getFiniteDifferenceY (fun _ _ => 0) 7 7 :=
  ⟨⟨by norm_num, by norm_num [testConfig]⟩,
   material_aware_diff_equiv testConfig (fun _ _ => 0) 7 7 (fun _ _ _ => rfl)
     (by norm_num) (by norm_num [testConfig]) (by norm_num) (by norm_num [testConfig])⟩

/-- C7, counterexample: with the 12×12 unit-spacing grid and a current buffer
that is 1 at cell (1,6), the claim's one-sided top-row formula at cell (0,6)
yields `2·(c·Δt/dy)² ≠ 0` for either candidate material speed
(2·343000² = 235298000000 for the cell's own material, which is air, or
2·1500000² for the shell speed), yet one step writes 0 there: row 0 lies in
the rigid edge margin, so the top-row branch never runs. -/
theorem top_row_counterexample :
    (update ctxTop testOps 1 stTop).grid 0 6 = 0 ∧
    addSourceExcitation ctxTop testOps (stTop.time + 1) 0 6 = 0 ∧
    materialSpeed ctxTop 0 6 = 343000 ∧
    specTopRowValue cfgTop stTop (materialSpeed ctxTop 0 6) 1 0 6 = 235298000000 ∧
    specTopRowValue cfgTop stTop cParabolic 1 0 6 = 4500000000000 := by
  have hb : createBoundaryMask ctxTop.cfg 0 6 = BoundaryType.RIGID :=
    margin_rigid ctxTop.cfg 0 6 (by norm_num)
  have hms : materialSpeed ctxTop 0 6 = 343000 := by
    rw [materialSpeed, if_neg (by rw [hb]; decide), show ctxTop.wp.speed = 343000 from rfl]
  have hf : calculateFocusPosition ctxTop = (11, 0) := by
    norm_num [calculateFocusPosition, ctxTop, cfgTop, dxOf, dyOf, roundAway, round_eq,
      Prod.ext_iff]
    rfl
  have hfr : createBoundaryMask ctxTop.cfg 11 0 = BoundaryType.RIGID :=
    margin_rigid ctxTop.cfg 11 0 (by norm_num [ctxTop, cfgTop])
  refine ⟨by rfl, ?_, hms, ?_, ?_⟩
  · simp [addSourceExcitation, hf, hfr]
  · rw [hms]
    norm_num [specTopRowValue, solveFormula, getFiniteDifferenceX, cfgTop, stTop, dxOf, dyOf]
  · norm_num [specTopRowValue, solveFormula, getFiniteDifferenceX, cfgTop, stTop,
      dxOf, dyOf, cParabolic]

/-- C7, amended: every border cell — the top row included — is set to 0 in
both buffers by one step, because every border cell lies in the 5-cell edge
margin and is therefore classified `RIGID`; the one-sided top-row branch is
unreachable. -/
theorem border_cells_zeroed (ctx : WaveContext) (ops : RealOps) (dt : ℚ)
    (st : FieldState) (i j : ℕ)
    (hb : i = 0 ∨ i = ctx.cfg.gridSize - 1 ∨ j = 0 ∨ j = ctx.cfg.gridSize - 1) :
    (update ctx ops dt st).grid i j = 0 ∧ (update ctx ops dt st).prev i j = 0 := by
  have hr : createBoundaryMask ctx.cfg i j = BoundaryType.RIGID :=
    margin_rigid ctx.cfg i j (by omega)
  exact ⟨by rw [update_grid, if_pos hr], by rw [update_prev, if_pos hr]⟩

/-- Witness for the amended C7 at a concrete input: one step of the 12×12
grid zeroes the top-row cell (0, 6) in both buffers. -/
theorem border_cells_zeroed_witness :
    ((0 : ℕ) = 0 ∨ (0 : ℕ) = ctxTop.cfg.gridSize - 1 ∨ (6 : ℕ) = 0 ∨
      (6 : ℕ) = ctxTop.cfg.gridSize - 1) ∧
    (update ctxTop testOps 1 stTop).grid 0 6 = 0 ∧
    (update ctxTop testOps 1 stTop).prev 0 6 = 0 :=
  ⟨Or.inl rfl, border_cells_zeroed ctxTop testOps 1 stTop 0 6 (Or.inl rfl)⟩

/-- C1: for every non-`RIGID` interior cell, under the rigid-zero invariant
on the current buffer (which holds at every step boundary), one step computes
the new value as
`(-(prev - 2·cur) + q0·γ·prev + q1·source + q2·dxx + q3·dyy) / (1 + γ·q0)`
with `q0 = c·Δt`, `q1 = c²·Δt²`, `q2 = (c·Δt/dx)²`, `q3 = (c·Δt/dy)²`,
`c` the cell's material speed, `source` the freshly built excitation, and
`dxx`, `dyy` the standard second central differences of the current buffer. -/
theorem interior_step_formula (ctx : WaveContext) (ops : RealOps) (dt : ℚ)
    (st : FieldState)
    (hz : ∀ a b, createBoundaryMask ctx.cfg a b = BoundaryType.RIGID → st.grid a b = 0)
    (i j : ℕ) (hi : 0 < i) (hiN : i + 1 < ctx.cfg.gridSize)
    (hj : 0 < j) (hjN : j + 1 < ctx.cfg.gridSize)
    (hbt : createBoundaryMask ctx.cfg i j ≠ BoundaryType.RIGID) :
    (update ctx ops dt st).grid i j =
      (-(st.prev i j - 2 * st.grid i j)
        + (materialSpeed ctx i j * dt) * ctx.cfg.dampingFactor * st.prev i j
        + (materialSpeed ctx i j * materialSpeed ctx i j * dt * dt) *
            addSourceExcitation ctx ops (st.time + dt) i j
        + ((materialSpeed ctx i j * dt / dxOf ctx.cfg) *
            (materialSpeed ctx i j * dt / dxOf ctx.cfg)) *
            (st.grid i (j - 1) - 2 * st.grid i j + st.grid i (j + 1))
        + ((materialSpeed ctx i j * dt / dyOf ctx.cfg) *
            (materialSpeed ctx i j * dt / dyOf ctx.cfg)) *
            (st.grid (i - 1) j - 2 * st.grid i j + st.grid (i + 1) j))
      / (1 + ctx.cfg.dampingFactor * (materialSpeed ctx i j * dt)) := by
  rw [update_grid, if_neg hbt]
  simp only [newGridVal]
  rw [if_neg hbt, if_neg (show ¬(i = 0 ∨ i = ctx.cfg.gridSize - 1 ∨ j = 0 ∨
    j = ctx.cfg.gridSize - 1) by omega)]
  by_cases hMB :
      (0 < i ∧ createBoundaryMask ctx.cfg (i - 1) j ≠ createBoundaryMask ctx.cfg i j) ∨
      (i < ctx.cfg.gridSize - 1 ∧
        createBoundaryMask ctx.cfg (i + 1) j ≠ createBoundaryMask ctx.cfg i j) ∨
      (0 < j ∧ createBoundaryMask ctx.cfg i (j - 1) ≠ createBoundaryMask ctx.cfg i j) ∨
      (j < ctx.cfg.gridSize - 1 ∧
        createBoundaryMask ctx.cfg i (j + 1) ≠ createBoundaryMask ctx.cfg i j)
  · rw [if_pos hMB, maFdX_eq ctx.cfg st.grid i j hz hj hjN,
      maFdY_eq ctx.cfg st.grid i j hz hi hiN]
    simp only [solveFormula, getFiniteDifferenceX, getFiniteDifferenceY]
    ring
  · rw [if_neg hMB]
    simp only [solveFormula, getFiniteDifferenceX, getFiniteDifferenceY]
    ring

/-- Cell (7, 7) of the 16×16 test grid is classified `AIR`. -/
lemma testCtx_cell77_air : createBoundaryMask testCtx.cfg 7 7 = BoundaryType.AIR := by
  norm_num [createBoundaryMask, dxOf, dyOf, testCtx, testConfig, abs]

/-- Cell (7, 7) of the 16×16 test grid is not `RIGID`. -/
lemma testCtx_cell77_not_rigid :
    createBoundaryMask testCtx.cfg 7 7 ≠ BoundaryType.RIGID := by
  rw [testCtx_cell77_air]
  decide

/-- Witness for C1 at a concrete input: the interior `AIR` cell (7, 7) of the
16×16 test grid, starting from the all-zero state. -/
theorem interior_step_formula_witness :
    ((∀ a b, createBoundaryMask testCtx.cfg a b = BoundaryType.RIGID →
        initialState.grid a b = 0) ∧
      (0 : ℕ) < 7 ∧ 7 + 1 < testCtx.cfg.gridSize ∧
      createBoundaryMask testCtx.cfg 7 7 ≠ BoundaryType.RIGID) ∧
    (update testCtx testOps 1 initialState).grid 7 7 =
      (-(initialState.prev 7 7 - 2 * initialState.grid 7 7)
        + (materialSpeed testCtx 7 7 * 1) * testCtx.cfg.dampingFactor * initialState.prev 7 7
        + (materialSpeed testCtx 7 7 * materialSpeed testCtx 7 7 * 1 * 1) *
            addSourceExcitation testCtx testOps (initialState.time + 1) 7 7
        + ((materialSpeed testCtx 7 7 * 1 / dxOf testCtx.cfg) *
            (materialSpeed testCtx 7 7 * 1 / dxOf testCtx.cfg)) *
            (initialState.grid 7 (7 - 1) - 2 * initialState.grid 7 7 +
              initialState.grid 7 (7 + 1))
        + ((materialSpeed testCtx 7 7 * 1 / dyOf testCtx.cfg) *
            (materialSpeed testCtx 7 7 * 1 / dyOf testCtx.cfg)) *
            (initialState.grid (7 - 1) 7 - 2 * initialState.grid 7 7 +
              initialState.grid (7 + 1) 7))
      / (1 + testCtx.cfg.dampingFactor * (materialSpeed testCtx 7 7 * 1)) :=
  ⟨⟨fun _ _ _ => rfl, by norm_num, by norm_num [testCtx, testConfig],
    testCtx_cell77_not_rigid⟩,
   interior_step_formula testCtx testOps 1 initialState (fun _ _ _ => rfl) 7 7
     (by norm_num) (by norm_num [testCtx, testConfig]) (by norm_num)
     (by norm_num [testCtx, testConfig]) testCtx_cell77_not_rigid⟩

/-- The wavelet value vanishes identically when the configured amplitude is 0. -/
lemma morletAmplitude_amp_zero (ops : RealOps) (wp : WaveParams) (t : ℚ)
    (h : wp.amplitude = 0) : morletAmplitude ops wp t = 0 := by
  simp only [morletAmplitude]
  split_ifs <;> simp [h]

/-- The whole source buffer vanishes when the configured amplitude is 0. -/
lemma addSourceExcitation_amp_zero (ctx : WaveContext) (ops : RealOps) (t : ℚ)
    (h : ctx.wp.amplitude = 0) (i j : ℕ) : addSourceExcitation ctx ops t i j = 0 := by
  simp only [addSourceExcitation]
  split_ifs <;> simp [morletAmplitude_amp_zero ops ctx.wp t h]

/-- If both field buffers and the source buffer are all zero, every cell of
the newly computed buffer is zero. -/
lemma newGridVal_zero (ctx : WaveContext) (dt : ℚ) (st : FieldState)
    (hg : ∀ i j, st.grid i j = 0) (hp : ∀ i j, st.prev i j = 0)
    (hs : ∀ i j, st.source i j = 0) (i j : ℕ) : newGridVal ctx dt st i j = 0 := by
  unfold newGridVal
  split_ifs <;>
    simp [solveFormula, getFiniteDifferenceX, getFiniteDifferenceY,
      getMaterialAwareFiniteDifferenceX, getMaterialAwareFiniteDifferenceY, hg, hp, hs]

/-- One step preserves all-zero field buffers when the amplitude is 0. -/
lemma update_zero_preserved (ctx : WaveContext) (ops : RealOps) (dt : ℚ)
    (st : FieldState) (hA : ctx.wp.amplitude = 0)
    (hg : ∀ i j, st.grid i j = 0) (hp : ∀ i j, st.prev i j = 0) :
    (∀ i j, (update ctx ops dt st).grid i j = 0) ∧
    (∀ i j, (update ctx ops dt st).prev i j = 0) := by
  constructor
  · intro i j
    rw [update_grid]
    split_ifs with h
    · rfl
    · exact newGridVal_zero ctx dt
        { grid := st.grid, prev := st.prev,
          source := addSourceExcitation ctx ops (st.time + dt), time := st.time + dt }
        hg hp (fun a b => addSourceExcitation_amp_zero ctx ops (st.time + dt) hA a b) i j
  · intro i j
    rw [update_prev]
    split_ifs with h
    · rfl
    · exact hg i j

/-- C3: with wave amplitude 0 and both field buffers starting all zero, every
cell of both buffers is exactly 0 after any number of steps, for every
configuration. -/
theorem zero_input_invariance (ctx : WaveContext) (ops : RealOps) (dt : ℚ)
    (st : FieldState) (hA : ctx.wp.amplitude = 0)
    (hg : ∀ i j, st.grid i j = 0) (hp : ∀ i j, st.prev i j = 0) (n : ℕ) (i j : ℕ) :
    (updateN ctx ops dt n st).grid i j = 0 ∧ (updateN ctx ops dt n st).prev i j = 0 := by
  induction n generalizing i j with
  | zero => exact ⟨hg i j, hp i j⟩
  | succ m ih =>
    exact ⟨(update_zero_preserved ctx ops dt _ hA (fun a b => (ih a b).1)
        (fun a b => (ih a b).2)).1 i j,
      (update_zero_preserved ctx ops dt _ hA (fun a b => (ih a b).1)
        (fun a b => (ih a b).2)).2 i j⟩

/-- Witness for C3 at a concrete input: the test context with amplitude 0,
after 2 steps, at cell (3, 4). -/
theorem zero_input_invariance_witness :
    (testCtxAmpZero.wp.amplitude = 0 ∧
      (∀ i j, initialState.grid i j = 0) ∧ (∀ i j, initialState.prev i j = 0)) ∧
    (updateN testCtxAmpZero testOps 1 2 initialState).grid 3 4 = 0 ∧
    (updateN testCtxAmpZero testOps 1 2 initialState).prev 3 4 = 0 :=
  ⟨⟨rfl, fun _ _ => rfl, fun _ _ => rfl⟩,
   zero_input_invariance testCtxAmpZero testOps 1 initialState rfl
     (fun _ _ => rfl) (fun _ _ => rfl) 2 3 4⟩

/-- The spec's fastest speed coincides with the code's
`max(speed, c_parabolic)`, for every configured ambient speed. -/
lemma specFastestSpeed_eq (wp : WaveParams) :
    specFastestSpeed wp = max wp.speed cParabolic := by
  by_cases h : wp.speed = 0 <;>
    simp [specFastestSpeed, specMaterialSpeed, List.filter, h, cParabolic]

/-- C4: the stability check warns exactly when the configured Δt exceeds
`0.4·min(dx,dy)/(fastestSpeed·√2)` with `fastestSpeed` the maximum speed over
material types with nonzero speed, and the constructor keeps the configured
Δt unchanged. -/
theorem cfl_check_spec (cfg : SimulationConfig) (wp : WaveParams) (fp : Point2D) :
    (cflWarning cfg wp ↔ cfg.timeStep > specMaxStableDt cfg wp) ∧
    (waveFieldCtor cfg wp fp).config.timeStep = cfg.timeStep := by
  refine ⟨?_, rfl⟩
  unfold cflWarning maxStableTimeStep specMaxStableDt
  rw [specFastestSpeed_eq]

/-- A family of configurations with `dx = dy = 1` mm (grid 300×300 on
[0,299]²) and configurable time step, as in the spec's CFL boundary test. -/
def cfgCFL (t : ℝ) : SimulationConfig :=
  { xMin := 0, xMax := 299, yMin := 0, yMax := 299, gridSize := 300,
    timeStep := t, dampingFactor := 0, reflectionCoeff := 0 }

/-- Wave parameters with the ambient speed 343,000 mm/s of the spec's CFL
boundary test. -/
def wpCFL : WaveParams :=
  { frequency := 1000, wavelength := 343, speed := 343000, amplitude := 1 }

/-- C5, counterexample: with `dx = dy = 1` mm and ambient speed 343,000 mm/s,
the configured Δt = 5×10⁻⁷ s lies below the claimed threshold
`0.4·1/(343000·√2) ≈ 8.2×10⁻⁷`, so by the claim it must not trigger the
warning — yet `validateCFLCondition` warns, because it always uses the
hard-coded fastest shell speed 1,500,000 mm/s. -/
theorem cfl_claimed_threshold_counterexample :
    dxOf (cfgCFL (1 / 2000000)) = 1 ∧ dyOf (cfgCFL (1 / 2000000)) = 1 ∧
    (cfgCFL (1 / 2000000)).timeStep ≤ (0.4 : ℝ) * 1 / (343000 * Real.sqrt 2) ∧
    cflWarning (cfgCFL (1 / 2000000)) wpCFL := by
  have hsnn : (0:ℝ) ≤ Real.sqrt 2 := Real.sqrt_nonneg 2
  have hs2 : (Real.sqrt 2) ^ 2 = 2 := Real.sq_sqrt (by norm_num)
  refine ⟨by norm_num [dxOf, cfgCFL], by norm_num [dyOf, cfgCFL], ?_, ?_⟩
  · show (1 / 2000000 : ℝ) ≤ 0.4 * 1 / (343000 * Real.sqrt 2)
    rw [le_div_iff₀ (by positivity)]
    nlinarith
  · unfold cflWarning maxStableTimeStep
    rw [show min (dxOf (cfgCFL (1 / 2000000))) (dyOf (cfgCFL (1 / 2000000))) = 1 by
         norm_num [dxOf, dyOf, cfgCFL],
       show (max wpCFL.speed cParabolic : ℚ) = 1500000 by norm_num [wpCFL, cParabolic]]
    show ((1 / 2000000 : ℝ)) > 0.4 * ((1 : ℚ) : ℝ) / (((1500000 : ℚ) : ℝ) * Real.sqrt 2)
    push_cast
    rw [gt_iff_lt, div_lt_iff₀ (by positivity)]
    nlinarith

/-- C5, amended: with `dx = dy = 1` mm the warning threshold is
`0.4·1/(1500000·√2) ≈ 1.9×10⁻⁷ s`, computed from the hard-coded fastest
(shell) speed — not from the ambient speed: every configured Δt strictly
above this value triggers the warning and every Δt at or below it does not. -/
theorem cfl_threshold_uses_fastest_speed (t : ℝ) :
    cflWarning (cfgCFL t) wpCFL ↔ t > (0.4 : ℝ) * 1 / (1500000 * Real.sqrt 2) := by
  unfold cflWarning maxStableTimeStep
  rw [show min (dxOf (cfgCFL t)) (dyOf (cfgCFL t)) = 1 by norm_num [dxOf, dyOf, cfgCFL],
    show (max wpCFL.speed cParabolic : ℚ) = 1500000 by norm_num [wpCFL, cParabolic]]
  norm_num [cfgCFL]

/-- C10: the default constructor's time step
`0.4·min(dx,dy)/(343000·√2)`, computed from the ambient speed only, strictly
exceeds the stability bound that `validateCFLCondition` computes from the
fastest shell speed 1,500,000 mm/s, so default construction always warns. -/
theorem default_config_always_warns :
    defaultConfig.timeStep =
      (0.4 : ℝ) * ((min (dxOf defaultConfig) (dyOf defaultConfig) : ℚ) : ℝ) /
        ((343000 : ℝ) * Real.sqrt 2) ∧
    cflWarning defaultConfig defaultWaveParams := by
  have hmin : min (dxOf defaultConfig) (dyOf defaultConfig) = defaultMinSpacing := by
    norm_num [dxOf, dyOf, defaultConfig, defaultMinSpacing]
  have hdm : defaultMinSpacing = 250 / 299 := by norm_num [defaultMinSpacing]
  constructor
  · rw [hmin]
    rfl
  · unfold cflWarning maxStableTimeStep
    rw [hmin, hdm, show (max defaultWaveParams.speed cParabolic : ℚ) = 1500000 by
      norm_num [defaultWaveParams, cParabolic]]
    show (0.4 : ℝ) * (defaultMinSpacing : ℝ) / ((343000 : ℝ) * Real.sqrt 2) > _
    rw [hdm]
    push_cast
    apply div_lt_div_of_pos_left
    · norm_num
    · positivity
    · nlinarith [Real.sqrt_pos.mpr (show (0:ℝ) < 2 by norm_num)]

/-- C6, counterexample: in the default 300×300 geometry with the focus point
resolving to cell (4, 150) — a `RIGID` margin cell — the neighbour (5, 150)
is a non-`RIGID` `AIR` cell, and at `t = 3 = pulseCenter` the wavelet value
is nonzero (−15 for the chosen transcendental primitives), so the claim
prescribes writing half of it there; but `addSourceExcitation` writes nothing
at all, because all writes are gated on the focus cell itself being
non-`RIGID`. -/
theorem source_focus_gating_counterexample :
    calculateFocusPosition ctxFocusRigid = (4, 150) ∧
    createBoundaryMask ctxFocusRigid.cfg 4 150 = BoundaryType.RIGID ∧
    createBoundaryMask ctxFocusRigid.cfg 5 150 = BoundaryType.AIR ∧
    morletAmplitude testOps ctxFocusRigid.wp 3 = -15 ∧
    addSourceExcitation ctxFocusRigid testOps 3 5 150 = 0 := by
  have hf : calculateFocusPosition ctxFocusRigid = (4, 150) := by
    norm_num [calculateFocusPosition, ctxFocusRigid, dxOf, dyOf, roundAway, round_eq,
      Prod.ext_iff]
    exact ⟨rfl, rfl⟩
  have hfr : createBoundaryMask ctxFocusRigid.cfg 4 150 = BoundaryType.RIGID :=
    margin_rigid ctxFocusRigid.cfg 4 150 (by norm_num)
  refine ⟨hf, hfr, ?_, ?_, ?_⟩
  · norm_num [createBoundaryMask, dxOf, dyOf, ctxFocusRigid, abs]
  · norm_num [morletAmplitude, testOps, ctxFocusRigid, abs]
  · simp [addSourceExcitation, hf, hfr]

/-- C6, amended: the excitation pass fully overwrites the source buffer from
the step time alone; the wavelet value is 0 whenever `t > 8/f₀` or `|τ| > 4`
with `τ = (t - 3/f₀)·f₀`; and provided the focus cell itself is in range and
non-`RIGID`, the wavelet value is written at the focus cell, half of it at
each in-range non-`RIGID` axis neighbour, and 0 at every other cell —
including cells at neighbour positions that are themselves `RIGID` or out of
range (the per-target gating retained from the claim) — while if the focus
cell is `RIGID` (or out of range) nothing at all is written, not even at
non-`RIGID` neighbours. -/
theorem source_excitation_behavior (ctx : WaveContext) (ops : RealOps) (dt : ℚ)
    (st : FieldState) (t : ℚ) :
    ((update ctx ops dt st).source = addSourceExcitation ctx ops (st.time + dt)) ∧
    ((8 / ctx.wp.frequency < t ∨
        4 < |(t - 3 / ctx.wp.frequency) * ctx.wp.frequency|) →
      morletAmplitude ops ctx.wp t = 0) ∧
    (((calculateFocusPosition ctx).1 < ctx.cfg.gridSize ∧
      (calculateFocusPosition ctx).2 < ctx.cfg.gridSize ∧
      createBoundaryMask ctx.cfg (calculateFocusPosition ctx).1
        (calculateFocusPosition ctx).2 ≠ BoundaryType.RIGID) →
      (addSourceExcitation ctx ops t (calculateFocusPosition ctx).1
          (calculateFocusPosition ctx).2 = morletAmplitude ops ctx.wp t) ∧
      (∀ i j, i < ctx.cfg.gridSize → j < ctx.cfg.gridSize →
        createBoundaryMask ctx.cfg i j ≠ BoundaryType.RIGID →
        isFocusNeighbor (calculateFocusPosition ctx) i j →
        addSourceExcitation ctx ops t i j = morletAmplitude ops ctx.wp t * 0.5) ∧
      (∀ i j, ¬(i = (calculateFocusPosition ctx).1 ∧ j = (calculateFocusPosition ctx).2) →
        ¬(i < ctx.cfg.gridSize ∧ j < ctx.cfg.gridSize ∧
          createBoundaryMask ctx.cfg i j ≠ BoundaryType.RIGID ∧
          isFocusNeighbor (calculateFocusPosition ctx) i j) →
        addSourceExcitation ctx ops t i j = 0)) ∧
    (¬((calculateFocusPosition ctx).1 < ctx.cfg.gridSize ∧
       (calculateFocusPosition ctx).2 < ctx.cfg.gridSize ∧
       createBoundaryMask ctx.cfg (calculateFocusPosition ctx).1
         (calculateFocusPosition ctx).2 ≠ BoundaryType.RIGID) →
      ∀ i j, addSourceExcitation ctx ops t i j = 0) := by
  refine ⟨rfl, ?_, ?_, ?_⟩
  · intro h
    simp only [morletAmplitude]
    split_ifs with h1 h2
    · have e1 : 8 * (1 / ctx.wp.frequency) = 8 / ctx.wp.frequency :=
        mul_one_div 8 ctx.wp.frequency
      have e2 : (t - 3 * (1 / ctx.wp.frequency)) / (1 / ctx.wp.frequency) =
          (t - 3 / ctx.wp.frequency) * ctx.wp.frequency := by
        rw [mul_one_div, div_eq_mul_inv, one_div, inv_inv]
      rw [e1] at h1
      rw [e2] at h2
      rcases h with h | h
      · linarith
      · linarith
    · rfl
    · rfl
  · intro hfoc
    refine ⟨?_, ?_, ?_⟩
    · simp only [addSourceExcitation]
      rw [if_pos hfoc]
      simp
    · intro i j hi hj hbt hnb
      have hne : ¬(i = (calculateFocusPosition ctx).1 ∧ j = (calculateFocusPosition ctx).2) := by
        rintro ⟨rfl, rfl⟩
        rcases hnb with h | h | h | h <;> omega
      simp only [addSourceExcitation]
      rw [if_pos hfoc, if_neg hne, if_pos ⟨hi, hj, hbt, hnb⟩]
    · intro i j hne hnb
      simp only [addSourceExcitation]
      rw [if_pos hfoc, if_neg hne, if_neg hnb]
  · intro h i j
    simp only [addSourceExcitation]
    rw [if_neg h]

/-- Witness for the amended C6 at concrete inputs: for the test context the
wavelet is 0 at `t = 100` (past the support), and at `t = 1` the full wavelet
value is written at the non-`RIGID` focus cell (8, 8). -/
theorem source_excitation_behavior_witness :
    (8 / testCtx.wp.frequency < (100 : ℚ)) ∧
    morletAmplitude testOps testCtx.wp 100 = 0 ∧
    addSourceExcitation testCtx testOps 1 8 8 = morletAmplitude testOps testCtx.wp 1 := by
  have hf : calculateFocusPosition testCtx = (8, 8) := by
    norm_num [calculateFocusPosition, testCtx, testConfig, dxOf, dyOf, roundAway,
      round_eq, Prod.ext_iff]
    rfl
  refine ⟨by norm_num [testCtx, testWaveParams], ?_, ?_⟩
  · exact (source_excitation_behavior testCtx testOps 1 initialState 100).2.1
      (Or.inl (by norm_num [testCtx, testWaveParams]))
  · have h := (source_excitation_behavior testCtx testOps 1 initialState 1).2.2.1
    rw [hf] at h
    exact (h ⟨by norm_num [testCtx, testConfig], by norm_num [testCtx, testConfig],
      by rw [show createBoundaryMask testCtx.cfg (8, 8).1 (8, 8).2 =
          BoundaryType.AIR from by
            norm_num [createBoundaryMask, dxOf, dyOf, testCtx, testConfig, abs]]
         decide⟩).1

end WaveSimulation
